import Mathlib

/-!
Verification of the XZ stream decoder in src/read/xz.rs.

The decoder is shallowly embedded: bytes are naturals below 256, the
underlying byte source is a list of chunks (one chunk is handed out per
read call, so short reads are representable), the shared counting reader
threads an explicit byte counter, and the single read routine of
XzDecoder is translated branch for branch into executable functions.
The external LZMA2 decompressor is out of scope for the repository (it is
consumed as an opaque decompressing reader), so it is modelled from the
spec as a scripted oracle; see lzmaRead below.
-/

set_option maxRecDepth 10000

namespace XzSpec

/-! ## CRC32 (crc32fast::Hasher, standard reflected CRC-32, poly 0xEDB88320) -/

/-- One bit step of the reflected CRC-32 algorithm. -/
def crcStepBit (c : Nat) : Nat :=
  if c % 2 = 1 then (c / 2) ^^^ 0xEDB88320 else c / 2

/-- Feed one byte (b < 256) into a CRC-32 state. -/
def crcByte (crc b : Nat) : Nat :=
  crcStepBit (crcStepBit (crcStepBit (crcStepBit
    (crcStepBit (crcStepBit (crcStepBit (crcStepBit (crc ^^^ b))))))))

/-- Hasher::update on a byte sequence. -/
def crcUpdate (crc : Nat) (bs : List Nat) : Nat := bs.foldl crcByte crc

/-- Hasher::finalize. The initial hasher state is 0xFFFFFFFF. -/
def crcFinal (crc : Nat) : Nat := crc ^^^ 0xFFFFFFFF

/-- CRC-32 of a whole byte sequence (Hasher::new, update, finalize). -/
def crc32 (bs : List Nat) : Nat := crcFinal (crcUpdate 0xFFFFFFFF bs)

/-- u32::to_le_bytes, truncating its argument to 32 bits. -/
def u32le (n : Nat) : List Nat :=
  [n % 256, n / 256 % 256, n / 65536 % 256, n / 16777216 % 256]

/-! ## The underlying byte source and the shared counting reader -/

/-- The caller's byte source R: a sequence of chunks. One read call hands
out (a prefix of) the head chunk, so sources that answer a read request
short are representable; an empty chunk list is end of data. -/
structure ByteSrc where
  chunks : List (List Nat)
deriving DecidableEq, Repr

/-- One Read::read call on the source with a buffer of size cap. -/
def srcRead (cap : Nat) : ByteSrc → List Nat × ByteSrc
  | ⟨[]⟩ => ([], ⟨[]⟩)
  | ⟨c :: rest⟩ =>
    let t := c.take cap
    let dr := c.drop cap
    (t, ⟨if dr.isEmpty then rest else dr :: rest⟩)

/-- RcCountReader: the shared counting source. count is the number of
bytes consumed since the last reset; views is the number of
RcCountReader handles sharing the inner Rc (Rc strong count), needed to
model Rc::into_inner. -/
structure RcReader where
  src : ByteSrc
  count : Nat
  views : Nat
deriving DecidableEq, Repr

/-- RcCountReader::read: forward to the source and add to the counter. -/
def rcRead (cap : Nat) (r : RcReader) : List Nat × RcReader :=
  let p := srcRead cap r.src
  (p.1, { r with src := p.2, count := r.count + p.1.length })

/-- std::io::Read::read_exact: loop read until the buffer is filled; a
zero-byte return aborts with the standard unexpected-eof message. The
fuel argument is an upper bound on the number of read calls (need
suffices, since every successful call returns at least one byte). -/
def rcReadExactAux : Nat → Nat → RcReader → Except String (List Nat × RcReader)
  | _, 0, r => .ok ([], r)
  | 0, _ + 1, _ => .error "failed to fill whole buffer"
  | fuel + 1, need + 1, r =>
    let p := rcRead (need + 1) r
    if p.1.length = 0 then .error "failed to fill whole buffer"
    else
      match rcReadExactAux fuel (need + 1 - p.1.length) p.2 with
      | .ok (rest, r2) => .ok (p.1 ++ rest, r2)
      | .error e => .error e

/-- read_exact of n bytes. On success the returned list has length n. -/
def rcReadExact (n : Nat) (r : RcReader) : Except String (List Nat × RcReader) :=
  rcReadExactAux n n r

/-! ## get_multibyte (the varint reader) -/

/-- Body of get_multibyte: up to 9 bytes, 7 payload bits each, every
consumed byte fed to the hasher before the continuation test. -/
def getMultibyteAux : Nat → Nat → Nat → Nat → RcReader →
    Except String (Nat × RcReader × Nat)
  | 0, _, _, _, _ => .error "Invalid multi-byte encoding"
  | fuel + 1, i, acc, crc, r =>
    match rcReadExact 1 r with
    | .error e => .error e
    | .ok (bs, r1) =>
      let b := bs.headD 0
      let crc1 := crcByte crc b
      let acc1 := acc ^^^ ((b &&& 0x7F) <<< (i * 7))
      if b &&& 0x80 = 0 then .ok (acc1, r1, crc1)
      else getMultibyteAux fuel (i + 1) acc1 crc1 r1

/-- get_multibyte(input, hasher): returns (value, advanced reader,
advanced hasher state). -/
def getMultibyte (r : RcReader) (crc : Nat) : Except String (Nat × RcReader × Nat) :=
  getMultibyteAux 9 0 0 crc r

/-! ## The LZMA2 adapter, modelled from the spec -/

/-- Modelled from the spec: the repository consumes lzma_rust::LZMA2Reader
as an opaque decompressing reader (spec section 1 "out of scope", section 4.5);
its code is not part of this repository. One block's decompression is a
script: entry (c, out) is one read call that consumes c compressed bytes
from the shared counting source and delivers the decompressed bytes out.
A zero-length buffer yields zero bytes without consuming anything (the
std::io::Read contract for empty buffers); an exhausted script signals
end-of-block-data, zero bytes with no error (spec section 4.5). A call
whose output exceeds the buffer delivers the surplus on later calls
without further consumption. -/
def lzmaRead (cap : Nat) (script : List (Nat × List Nat)) (r : RcReader) :
    Except String (List Nat × List (Nat × List Nat) × RcReader) :=
  if cap = 0 then .ok ([], script, r)
  else
    match script with
    | [] => .ok ([], [], r)
    | (c, outB) :: rest =>
      match rcReadExact c r with
      | .error e => .error e
      | .ok (_, r1) =>
        if cap < outB.length then .ok (outB.take cap, (0, outB.drop cap) :: rest, r1)
        else .ok (outB, rest, r1)

/-! ## Decoder state -/

/-- XzReader: either the raw counting view or the LZMA2-wrapped view.
Both hold the (single) shared counting reader; the lzma variant also
carries the remaining decompression script of the current block. -/
inductive XzReaderSt where
  | raw (r : RcReader)
  | lzma (script : List (Nat × List Nat)) (r : RcReader)
deriving DecidableEq, Repr

/-- The reader held by either variant. -/
def XzReaderSt.rc : XzReaderSt → RcReader
  | .raw r => r
  | .lzma _ r => r

/-- Whether the decoder is mid-block (LZMA2-wrapped view active). -/
def XzReaderSt.isLzma : XzReaderSt → Bool
  | .raw _ => false
  | .lzma _ _ => true

/-- Remaining decompression script of the current block (empty in raw mode). -/
def XzReaderSt.scriptRem : XzReaderSt → List (Nat × List Nat)
  | .raw _ => []
  | .lzma s _ => s

/-- XzDecoder. scripts is the oracle for the opaque LZMA2 adapter: the
decompression script each future block's LZMA2Reader will follow,
consumed one script per constructed reader. -/
structure XzDecoder where
  reader : XzReaderSt
  flags : Nat × Nat
  block_begin : Nat
  block_written : Nat
  records : List (Nat × Nat)
  scripts : List (List (Nat × List Nat))
deriving DecidableEq, Repr

/-- XzDecoder::new. -/
def initDecoder (src : ByteSrc) (scripts : List (List (Nat × List Nat))) : XzDecoder :=
  { reader := .raw { src := src, count := 0, views := 1 }
    flags := (0, 0)
    block_begin := 0
    block_written := 0
    records := []
    scripts := scripts }

/-- XzReader::into_inner / XzDecoder::into_inner: extract the counting
reader from either variant (LZMA2Reader::into_inner hands back its inner
reader) and apply Rc::into_inner, which yields the source iff this
handle is the only one outstanding (strong count 1). -/
def into_inner (d : XzDecoder) : Option ByteSrc :=
  match d.reader with
  | .raw r => if r.views = 1 then some r.src else none
  | .lzma _ r => if r.views = 1 then some r.src else none

/-! ## Block-header and index helpers (loops of XzDecoder::read) -/

/-- The filter loop (xz.rs lines 233-247): for each declared filter, the
id varint must be 0x21, the properties-size varint must be 1, and the
properties byte must have its top two bits clear; every byte is fed to
the header hasher. -/
def parse_filters : Nat → RcReader → Nat → Except String (RcReader × Nat)
  | 0, r, dg => .ok (r, dg)
  | k + 1, r, dg =>
    match getMultibyte r dg with
    | .error e => .error e
    | .ok (fid, r1, dg1) =>
      if fid ≠ 0x21 then .error "Unsupported XZ filter ID"
      else
        match getMultibyte r1 dg1 with
        | .error e => .error e
        | .ok (psz, r2, dg2) =>
          if psz ≠ 1 then .error "Unsupported XZ filter properties size"
          else
            match rcReadExact 1 r2 with
            | .error e => .error e
            | .ok (pb, r3) =>
              if pb.headD 0 &&& 0xC0 ≠ 0 then .error "Unsupported XZ filter properties"
              else parse_filters k r3 (crcByte dg2 (pb.headD 0))

/-- The index record loop (xz.rs lines 172-179): for each recorded block,
read two varints and compare them with the recorded
(unpadded_size, uncompressed_size); each mismatch has its own error. -/
def checkRecords : List (Nat × Nat) → RcReader → Nat → Except String (RcReader × Nat)
  | [], r, dg => .ok (r, dg)
  | (u, t) :: rest, r, dg =>
    match getMultibyte r dg with
    | .error e => .error e
    | .ok (v1, r1, dg1) =>
      if v1 ≠ u then .error "Invalid XZ unpadded size"
      else
        match getMultibyte r1 dg1 with
        | .error e => .error e
        | .ok (v2, r2, dg2) =>
          if v2 ≠ t then .error "Invalid XZ uncompressed size"
          else checkRecords rest r2 dg2

/-- Specification-side reading of n varint pairs from the same position,
with no comparison: what the index region actually contains. -/
def readPairs : Nat → RcReader → Nat → Except String (List (Nat × Nat) × RcReader × Nat)
  | 0, r, dg => .ok ([], r, dg)
  | n + 1, r, dg =>
    match getMultibyte r dg with
    | .error e => .error e
    | .ok (u, r1, dg1) =>
      match getMultibyte r1 dg1 with
      | .error e => .error e
      | .ok (t, r2, dg2) =>
        match readPairs n r2 dg2 with
        | .error e => .error e
        | .ok (ps, r3, dg3) => .ok ((u, t) :: ps, r3, dg3)

/-- The five checks on the 16-byte region read right after the index
padding (xz.rs lines 190-206). dg is the running index hasher state
(marker byte through index padding), size the byte length of the index
from its marker byte through its padding, fb the 16 bytes. -/
def check_footer (dg : Nat) (flags : Nat × Nat) (size : Nat) (fb : List Nat) :
    Except String Unit :=
  if u32le (crcFinal dg) ≠ fb.take 4 then .error "Invalid XZ index CRC32"
  else if u32le (crc32 ((fb.drop 8).take 6)) ≠ (fb.drop 4).take 4 then
    .error "Invalid XZ footer CRC32"
  else if (fb.drop 8).take 4 ≠ u32le (size >>> 2) then .error "Invalid XZ footer size"
  else if [flags.1, flags.2] ≠ (fb.drop 12).take 2 then .error "Invalid XZ footer flags"
  else if (fb.drop 14).take 2 ≠ [0x59, 0x5A] then .error "Invalid XZ footer magic"
  else .ok ()

/-! ## XzDecoder::read -/

/-- The block path of XzDecoder::read (xz.rs lines 216-266), entered
after a nonzero structural lead byte b0. Parses the block header, then
constructs the LZMA2 reader over a clone of the counting reader (taking
the next oracle script) and performs the first decompressing read. -/
def xz_read_block (d : XzDecoder) (r : RcReader) (dg : Nat) (b0 : Nat) (cap : Nat) :
    Except String (List Nat) × XzDecoder :=
  let header_end := (b0 <<< 2) - 1 + r.count
  match rcReadExact 1 r with
  | .error e => (.error e, { d with reader := .raw r })
  | .ok (flb, r1) =>
    let fl := flb.headD 0
    let dg1 := crcByte dg fl
    let num_filters := (fl &&& 0x03) + 1
    if fl &&& 0x3C ≠ 0 then (.error "Invalid XZ block flags", { d with reader := .raw r1 })
    else
      match (if fl &&& 0x40 ≠ 0 then getMultibyte r1 dg1 else .ok (0, r1, dg1)) with
      | .error e => (.error e, { d with reader := .raw r1 })
      | .ok (_, r2, dg2) =>
        match (if fl &&& 0x80 ≠ 0 then getMultibyte r2 dg2 else .ok (0, r2, dg2)) with
        | .error e => (.error e, { d with reader := .raw r2 })
        | .ok (_, r3, dg3) =>
          match parse_filters num_filters r3 dg3 with
          | .error e => (.error e, { d with reader := .raw r3 })
          | .ok (r4, dg4) =>
            match rcReadExact (header_end - r4.count) r4 with
            | .error e => (.error e, { d with reader := .raw r4 })
            | .ok (padb, r5) =>
              if ¬ (padb.all (fun x => x == 0)) then
                (.error "Invalid XZ block header padding", { d with reader := .raw r5 })
              else
                let dg5 := crcUpdate dg4 padb
                match rcReadExact 4 r5 with
                | .error e => (.error e, { d with reader := .raw r5 })
                | .ok (hcrc, r6) =>
                  if u32le (crcFinal dg5) ≠ hcrc then
                    (.error "Invalid XZ block header CRC32", { d with reader := .raw r6 })
                  else
                    let script := d.scripts.headD []
                    let scripts1 := d.scripts.tail
                    match lzmaRead cap script r6 with
                    | .error e =>
                      (.error e, { d with reader := .raw r6, block_written := 0,
                                          scripts := scripts1 })
                    | .ok (bs, script1, r7) =>
                      (.ok bs,
                       { d with reader := .lzma script1 { r7 with views := r7.views + 1 - 1 },
                                block_written := bs.length, scripts := scripts1 })

/-- The index/footer path of XzDecoder::read (xz.rs lines 166-213),
entered after a zero structural lead byte. recur is the recursive
self.read call performed after the footer's trailing padding. -/
def xz_read_index (recur : XzDecoder → Except String (List Nat) × XzDecoder)
    (d : XzDecoder) (r : RcReader) (dg : Nat) :
    Except String (List Nat) × XzDecoder :=
  match getMultibyte r dg with
  | .error e => (.error e, { d with reader := .raw r })
  | .ok (nrec, r1, dg1) =>
    if nrec ≠ d.records.length then
      (.error "Invalid XZ index record count", { d with reader := .raw r1 })
    else
      match checkRecords d.records r1 dg1 with
      | .error e => (.error e, { d with reader := .raw r1 })
      | .ok (r2, dg2) =>
        let size0 := r2.count - d.block_begin
        match rcReadExact ((4 - (size0 &&& 3)) &&& 3) r2 with
        | .error e => (.error e, { d with reader := .raw r2 })
        | .ok (pb, r3) =>
          if ¬ (pb.all (fun x => x == 0)) then
            (.error "Invalid XZ index padding", { d with reader := .raw r3 })
          else
            let dg3 := crcUpdate dg2 pb
            let size := size0 + pb.length
            match rcReadExact 16 r3 with
            | .error e => (.error e, { d with reader := .raw r3 })
            | .ok (fb, r4) =>
              match check_footer dg3 d.flags size fb with
              | .error e => (.error e, { d with reader := .raw r4 })
              | .ok _ =>
                match rcReadExact ((4 - (r4.count &&& 3)) &&& 3) r4 with
                | .error e => (.error e, { d with reader := .raw r4 })
                | .ok (pb2, r5) =>
                  if ¬ (pb2.all (fun x => x == 0)) then
                    (.error "Invalid XZ footer padding", { d with reader := .raw r5 })
                  else
                    recur { d with reader := .raw { r5 with count := 0 } }

/-- Structural part of XzDecoder::read (xz.rs lines 135-266): stream
header when the counter is zero, then one structural lead byte deciding
between index (0) and block header (nonzero). -/
def xz_struct (recur : XzDecoder → Except String (List Nat) × XzDecoder)
    (d : XzDecoder) (r : RcReader) (cap : Nat) :
    Except String (List Nat) × XzDecoder :=
  if r.count = 0 then
    let p := rcRead 12 r
    let r0 := p.2
    if p.1.length = 0 then (.ok [], { d with reader := .raw r0 })
    else
      let b := p.1 ++ List.replicate (12 - p.1.length) 0
      if b.take 6 ≠ [0xFD, 0x37, 0x7A, 0x58, 0x5A, 0x00] then
        (.error "Invalid XZ header", { d with reader := .raw r0 })
      else
        let f0 := b.getD 6 0
        let f1 := b.getD 7 0
        let d1 := { d with flags := (f0, f1), reader := .raw r0 }
        if f0 ≠ 0 ∨ f1 &&& 0xF0 ≠ 0 then (.error "Invalid XZ stream flags", d1)
        else if 2 ≤ f1 &&& 0x0F then (.error "Unsupported XZ stream flags", d1)
        else if u32le (crc32 [f0, f1]) ≠ b.drop 8 then
          (.error "Invalid XZ stream flags CRC32", d1)
        else
          let d2 := { d1 with block_begin := r0.count }
          match rcReadExact 1 r0 with
          | .error e => (.error e, d2)
          | .ok (lb, r1) =>
            let b0 := lb.headD 0
            let dg := crcByte 0xFFFFFFFF b0
            if b0 = 0 then xz_read_index recur d2 r1 dg
            else xz_read_block d2 r1 dg b0 cap
  else
    let d2 := { d with block_begin := r.count, reader := .raw r }
    match rcReadExact 1 r with
    | .error e => (.error e, d2)
    | .ok (lb, r1) =>
      let b0 := lb.headD 0
      let dg := crcByte 0xFFFFFFFF b0
      if b0 = 0 then xz_read_index recur d2 r1 dg
      else xz_read_block d2 r1 dg b0 cap

/-- XzDecoder::read (xz.rs lines 100-267). cap is the caller's buffer
size; .ok bs delivers bs (the Rust call returns bs.length). fuel bounds
the number of recursive self.read calls made after a stream footer; it
is irrelevant whenever it exceeds the (source-length bounded) recursion
depth. -/
def xz_read : Nat → XzDecoder → Nat → Except String (List Nat) × XzDecoder
  | 0, d, _ => (.error "xz fuel exhausted", d)
  | fuel + 1, d, cap =>
    match d.reader with
    | .raw r => xz_struct (fun d2 => xz_read fuel d2 cap) d r cap
    | .lzma script r =>
      match lzmaRead cap script r with
      | .error e => (.error e, d)
      | .ok (bs, script1, r1) =>
        if bs.length ≠ 0 then
          (.ok bs, { d with reader := .lzma script1 r1,
                            block_written := d.block_written + bs.length })
        else
          let unpadded := r1.count - d.block_begin
          let records1 := d.records ++ [(unpadded, d.block_written)]
          let check_size := if d.flags.2 &&& 0x0F = 0 then 0 else 4
          match rcReadExact (((4 - (unpadded &&& 3)) &&& 3) + check_size) r1 with
          | .error e =>
            (.error e, { d with records := records1, reader := .lzma script1 r1 })
          | .ok (tb, r2) =>
            if ¬ ((tb.take check_size).all (fun x => x == 0)) then
              (.error "Invalid XZ block padding",
               { d with records := records1, reader := .lzma script1 r2 })
            else
              xz_struct (fun d2 => xz_read fuel d2 cap)
                { d with records := records1,
                         reader := .raw { r2 with views := r2.views + 1 - 1 } }
                { r2 with views := r2.views + 1 - 1 } cap

/-! ## Concrete streams used by the claims -/

/-- Whether a read result is an error. -/
def isError : Except String (List Nat) × XzDecoder → Bool
  | (.error _, _) => true
  | (.ok _, _) => false

/-- The six stream-header magic bytes. -/
def xzMagic : List Nat := [0xFD, 0x37, 0x7A, 0x58, 0x5A, 0x00]

/-- 12-byte stream header, check type none. -/
def header_none : List Nat := xzMagic ++ [0, 0] ++ u32le (crc32 [0, 0])

/-- 12-byte stream header, check type CRC32. -/
def header_crc32 : List Nat := xzMagic ++ [0, 1] ++ u32le (crc32 [0, 1])

/-- The 16-byte region (index CRC32 then 12-byte footer) of a stream
whose index is the 4 bytes 00 00 00 00 (empty index padded). -/
def zfooter16 : List Nat :=
  u32le (crc32 [0, 0, 0, 0]) ++ u32le (crc32 [1, 0, 0, 0, 0, 0]) ++
    [1, 0, 0, 0] ++ [0, 0] ++ [0x59, 0x5A]

/-- A complete well-formed zero-block stream, check type none:
header, index marker 0, record count 0, two padding zeros, index CRC32,
footer. 32 bytes, so no trailing stream padding. -/
def zstream : List Nat := header_none ++ [0, 0] ++ [0, 0] ++ zfooter16

/-- Covered bytes of the one-filter block header below (before its CRC32):
size byte 2 (so 12 header bytes in total), block flags 0, filter id 0x21,
properties size 1, properties byte 0, three padding zeros. -/
def bh1 : List Nat := [2, 0, 0x21, 1, 0, 0, 0, 0]

/-- 12-byte block header declaring a single LZMA2 filter. -/
def bheader : List Nat := bh1 ++ u32le (crc32 bh1)

/-- Index of a one-block stream with record (13, 1): marker, count 1,
unpadded size 13, uncompressed size 1 (single-byte varints), no padding. -/
def idx13 : List Nat := [0, 1, 13, 1]

/-- 16-byte region for idx13 (index length 4, backward size 1). -/
def fb13 : List Nat :=
  u32le (crc32 idx13) ++ u32le (crc32 [1, 0, 0, 0, 0, 0]) ++
    [1, 0, 0, 0] ++ [0, 0] ++ [0x59, 0x5A]

/-- One-block stream, check type none: 12-byte block header, one
compressed byte, three zero block-padding bytes, index, footer.
48 bytes; the block's unpadded size is 12 + 1 = 13. -/
def okstream : List Nat := header_none ++ bheader ++ [0x99] ++ [0, 0, 0] ++ idx13 ++ fb13

/-- The decompression script for okstream's block: one read call
consuming the one compressed byte and producing the byte 0x48. -/
def okscript : List (Nat × List Nat) := [(1, [0x48])]

/-- okstream with a nonzero byte in the block padding region. -/
def padbadstream : List Nat :=
  header_none ++ bheader ++ [0x99] ++ [0xAB, 0, 0] ++ idx13 ++ fb13

/-- Index of a one-block stream with record (16, 1). -/
def idx16 : List Nat := [0, 1, 16, 1]

/-- 16-byte region for idx16 under check type CRC32 (footer flags 0, 1). -/
def fb16 : List Nat :=
  u32le (crc32 idx16) ++ u32le (crc32 [1, 0, 0, 0, 0, 1]) ++
    [1, 0, 0, 0] ++ [0, 1] ++ [0x59, 0x5A]

/-- One-block stream, check type CRC32, whose block's check-value field
is the nonzero bytes 01 00 00 00: block header, four compressed bytes
(unpadded size 16, so the block padding is empty), the 4-byte check
value, index, footer. -/
def crcbadstream : List Nat :=
  header_crc32 ++ bheader ++ [9, 9, 9, 9] ++ [1, 0, 0, 0] ++ idx16 ++ fb16

/-- crcbadstream with an all-zero check-value field instead. -/
def crczerostream : List Nat :=
  header_crc32 ++ bheader ++ [9, 9, 9, 9] ++ [0, 0, 0, 0] ++ idx16 ++ fb16

/-- Script for the CRC32-check streams: one read call consuming the four
compressed bytes and producing the byte 0x48. -/
def crcscript : List (Nat × List Nat) := [(4, [0x48])]

/-- Covered bytes of a block header declaring two filters (block flags
byte 0x01), both well-formed LZMA2 entries: size byte 2, flags 1, then
(id 0x21, properties size 1, properties 0) twice; no padding. -/
def bh2 : List Nat := [2, 1, 0x21, 1, 0, 0x21, 1, 0]

/-- Stream whose single block header declares two well-formed LZMA2
filters, followed by one compressed byte. -/
def twofilterstream : List Nat := header_none ++ bh2 ++ u32le (crc32 bh2) ++ [0x77]

/-- Two-filter block header whose second filter id is 0x22. -/
def twofilterbadid : List Nat := header_none ++ [2, 1, 0x21, 1, 0, 0x22]

/-- Two-filter block header whose second properties size is 2. -/
def twofilterbadps : List Nat := header_none ++ [2, 1, 0x21, 1, 0, 0x21, 2]

/-- Two-filter block header whose second properties byte has a top bit set. -/
def twofilterbadpr : List Nat := header_none ++ [2, 1, 0x21, 1, 0, 0x21, 1, 0xC0]

/-- okstream truncated after the block, with an index record count of 2
(one block was decoded). -/
def cntbadstream : List Nat := header_none ++ bheader ++ [0x99] ++ [0, 0, 0] ++ [0, 2]

/-- okstream truncated, index declaring unpadded size 14 instead of 13. -/
def unpbadstream : List Nat := header_none ++ bheader ++ [0x99] ++ [0, 0, 0] ++ [0, 1, 14]

/-- okstream truncated, index declaring uncompressed size 2 instead of 1. -/
def totbadstream : List Nat :=
  header_none ++ bheader ++ [0x99] ++ [0, 0, 0] ++ [0, 1, 13, 2]

/-- Zero-block stream with a nonzero byte in the index padding. -/
def zidxbadstream : List Nat := header_none ++ [0, 0, 0xAB, 0]

/-- Block header with a nonzero byte in its header padding (truncated
after the padding; the padding check precedes the header CRC check). -/
def bhpadbadstream : List Nat := header_none ++ [2, 0, 0x21, 1, 0] ++ [0xAB, 0, 0]

/-- One-block stream, check type CRC32, with a nonzero byte in the block
padding (unpadded size 13, so three padding bytes precede the check
value), truncated after the padding+check region. -/
def crcpadbadstream : List Nat :=
  header_crc32 ++ bheader ++ [0x99] ++ [0xAB, 0, 0] ++ [0, 0, 0, 0]

deriving instance DecidableEq for Except

/-! ## Helper lemmas -/

/-- Sanity anchor: CRC-32 of the ASCII bytes "123456789" is 0xCBF43926,
the standard CRC-32 check value, so crcByte implements the same function
as crc32fast::Hasher. -/
theorem crc32_check_value :
    crc32 [0x31, 0x32, 0x33, 0x34, 0x35, 0x36, 0x37, 0x38, 0x39] = 0xCBF43926 := by
  decide

/-- The record-comparison loop succeeds exactly when the varint pairs
present in the index equal the recorded pairs, in order. -/
theorem checkRecords_ok_iff (records : List (Nat × Nat)) :
    ∀ (r : RcReader) (dg : Nat) (r2 : RcReader) (dg2 : Nat),
      checkRecords records r dg = .ok (r2, dg2) ↔
        readPairs records.length r dg = .ok (records, r2, dg2) := by
  induction records with
  | nil =>
    intro r dg r2 dg2
    simp [checkRecords, readPairs]
  | cons p rest ih =>
    intro r dg r2 dg2
    obtain ⟨u, t⟩ := p
    simp only [checkRecords, readPairs, List.length_cons]
    cases h1 : getMultibyte r dg with
    | error e => simp
    | ok v =>
      obtain ⟨u1, r1, dg1⟩ := v
      cases h2 : getMultibyte r1 dg1 with
      | error e =>
        by_cases hu : u1 = u
        · subst hu
          simp only [ne_eq, not_true_eq_false, ite_false, if_false, h2]
          simp
        · simp [hu, h2]
      | ok w =>
        obtain ⟨t1, r2x, dg2x⟩ := w
        cases h3 : readPairs rest.length r2x dg2x with
        | error e =>
          by_cases hu : u1 = u
          · subst hu
            by_cases ht : t1 = t
            · subst ht
              simp only [ne_eq, not_true_eq_false, ite_false, h2, h3]
              rw [ih]
              simp [h3]
            · simp [ht, h2, h3]
          · simp [hu, h2, h3]
        | ok z =>
          obtain ⟨ps, r3, dg3⟩ := z
          by_cases hu : u1 = u
          · subst hu
            by_cases ht : t1 = t
            · subst ht
              simp only [ne_eq, not_true_eq_false, ite_false, h2, h3]
              rw [ih]
              simp [h3]
            · simp [ht, h2, h3]
          · simp [hu, h2, h3]

/-- If the index region holds pairs that differ from the recorded ones,
the record-comparison loop fails with one of its two mismatch errors. -/
theorem checkRecords_mismatch (records : List (Nat × Nat)) :
    ∀ (r : RcReader) (dg : Nat) (ps : List (Nat × Nat)) (r2 : RcReader) (dg2 : Nat),
      readPairs records.length r dg = .ok (ps, r2, dg2) → ps ≠ records →
        checkRecords records r dg = .error "Invalid XZ unpadded size" ∨
          checkRecords records r dg = .error "Invalid XZ uncompressed size" := by
  induction records with
  | nil =>
    intro r dg ps r2 dg2 h hne
    simp [readPairs] at h
    exact absurd h.1 hne
  | cons p rest ih =>
    intro r dg ps r2 dg2 h hne
    obtain ⟨u, t⟩ := p
    simp only [readPairs, List.length_cons] at h
    simp only [checkRecords]
    cases h1 : getMultibyte r dg with
    | error e => simp [h1] at h
    | ok v =>
      obtain ⟨u1, r1, dg1⟩ := v
      simp only [h1] at h
      by_cases hu : u1 = u
      · subst hu
        simp only [ne_eq, not_true_eq_false, ite_false]
        cases h2 : getMultibyte r1 dg1 with
        | error e => simp [h2] at h
        | ok w =>
          obtain ⟨t1, r2x, dg2x⟩ := w
          simp only [h2] at h
          by_cases ht : t1 = t
          · subst ht
            simp only [ne_eq, not_true_eq_false, ite_false]
            cases h3 : readPairs rest.length r2x dg2x with
            | error e => simp [h3] at h
            | ok z =>
              obtain ⟨ps1, r3, dg3⟩ := z
              simp only [h3, Except.ok.injEq, Prod.mk.injEq] at h
              obtain ⟨hps, hr3, hdg3⟩ := h
              have hrest : ps1 ≠ rest := by
                intro hq
                exact hne (by rw [← hps, hq])
              exact ih r2x dg2x ps1 r3 dg3 h3 hrest
          · simp only [ne_eq, ht, not_false_eq_true, ite_true]
            exact Or.inr trivial
      · simp only [ne_eq, hu, not_false_eq_true, ite_true]
        exact Or.inl trivial

/-- A read on a raw-mode decoder whose counter is zero and whose source
is exhausted returns end-of-data and leaves the state unchanged, so by
iterating, every subsequent read returns end-of-data as well. -/
theorem eof_reads_return_empty :
    ∀ (fuel cap : Nat) (d : XzDecoder) (r : RcReader),
      d.reader = .raw r → r.count = 0 → r.src = ⟨[]⟩ →
        xz_read (fuel + 1) d cap = (.ok [], d) := by
  intro fuel cap d r hr hc hs
  obtain ⟨rd, fl, bb, bw, recs, scr⟩ := d
  obtain ⟨src, cnt, vw⟩ := r
  simp only at hr
  subst hr
  simp only at hc hs
  subst hc
  subst hs
  simp [xz_read, xz_struct, rcRead, srcRead]

/-- What the five footer checks validate: bytes [0:4] of the 16-byte
region against the running index digest, bytes [4:8] against the CRC-32
of bytes [8:14], bytes [8:12] against the truncated size >>> 2 (equal to
(size + 4) / 4 - 1, where size + 4 is the byte length of the index from
its marker byte through its 4-byte CRC32), with a distinct error for
each mismatch. -/
theorem footer_checks :
    ∀ (dg : Nat) (fl : Nat × Nat) (size : Nat) (fb : List Nat),
      (check_footer dg fl size fb = .ok () →
        fb.take 4 = u32le (crcFinal dg) ∧
          (fb.drop 4).take 4 = u32le (crc32 ((fb.drop 8).take 6)) ∧
          (fb.drop 8).take 4 = u32le ((size + 4) / 4 - 1)) ∧
      (fb.take 4 ≠ u32le (crcFinal dg) →
        check_footer dg fl size fb = .error "Invalid XZ index CRC32") ∧
      (fb.take 4 = u32le (crcFinal dg) →
        (fb.drop 4).take 4 ≠ u32le (crc32 ((fb.drop 8).take 6)) →
        check_footer dg fl size fb = .error "Invalid XZ footer CRC32") ∧
      (fb.take 4 = u32le (crcFinal dg) →
        (fb.drop 4).take 4 = u32le (crc32 ((fb.drop 8).take 6)) →
        (fb.drop 8).take 4 ≠ u32le ((size + 4) / 4 - 1) →
        check_footer dg fl size fb = .error "Invalid XZ footer size") := by
  intro dg fl size fb
  have hsz : (size + 4) / 4 - 1 = size >>> 2 := by
    simp [Nat.shiftRight_eq_div_pow, Nat.add_div_right]
  refine ⟨?_, ?_, ?_, ?_⟩
  · intro h
    unfold check_footer at h
    split_ifs at h with h1 h2 h3 h4 h5
    · push_neg at h1 h2 h3
      exact ⟨h1.symm, h2.symm, by rw [hsz]; exact h3⟩
  · intro h1
    unfold check_footer
    rw [if_pos (Ne.symm h1)]
  · intro h1 h2
    unfold check_footer
    rw [if_neg (by simp [h1]), if_pos (Ne.symm h2)]
  · intro h1 h2 h3
    unfold check_footer
    rw [if_neg (by simp [h1]), if_neg (by simp [h2]), if_pos (by rw [← hsz]; exact h3)]

/-! ## Claims -/

/-- C1, counterexample: after a fully valid one-block stream, one trailing
byte 0xFF remains in the source; the read that consumes the footer and
trailing padding then reports the error "Invalid XZ header" instead of
end-of-data (zero bytes, no error), because the decoder resets its
counter and re-enters stream-header (Start) parsing. -/
theorem xz_c1_counterexample :
    (xz_read 5 (xz_read 5 (initDecoder ⟨[okstream ++ [0xFF]]⟩ [okscript]) 10).2 10).1
      = .error "Invalid XZ header" := by
  decide

/-- C1 (amended): after consuming footer and trailing padding the decoder
resets the shared counter and re-enters stream-header parsing; it reports
end-of-data exactly when the underlying source is then exhausted, in
which case its state is unchanged, so every subsequent read also reports
end-of-data; if further bytes remain they are parsed as a new stream
(a concatenated second zero-block stream is silently consumed whole). -/
theorem xz_c1_amended :
    (∀ (fuel cap : Nat) (d : XzDecoder) (r : RcReader),
      d.reader = .raw r → r.count = 0 → r.src = ⟨[]⟩ →
        xz_read (fuel + 1) d cap = (.ok [], d)) ∧
    (xz_read 5 (initDecoder ⟨[okstream]⟩ [okscript]) 10).1 = .ok [0x48] ∧
    (xz_read 5 (xz_read 5 (initDecoder ⟨[okstream]⟩ [okscript]) 10).2 10).1 = .ok [] ∧
    (xz_read 5 (xz_read 5 (initDecoder ⟨[okstream]⟩ [okscript]) 10).2 10).2.reader
      = .raw ⟨⟨[]⟩, 0, 1⟩ ∧
    (xz_read 5 (initDecoder ⟨[zstream ++ zstream]⟩ []) 10).1 = .ok [] ∧
    (xz_read 5 (initDecoder ⟨[zstream ++ zstream]⟩ []) 10).2.reader = .raw ⟨⟨[]⟩, 0, 1⟩ :=
  ⟨eof_reads_return_empty, by decide, by decide, by decide, by decide, by decide⟩

/-- C1, witness: the end-of-data fixpoint at a concrete exhausted decoder. -/
theorem xz_c1_witness :
    xz_read 1 (initDecoder ⟨[]⟩ []) 5 = (.ok [], initDecoder ⟨[]⟩ []) :=
  xz_c1_amended.1 0 5 (initDecoder ⟨[]⟩ []) ⟨⟨[]⟩, 0, 1⟩ rfl rfl rfl

/-- C2, code evaluated at the failing input: with check type none, a
nonzero byte 0xAB in the block's trailing alignment padding (bytes 25-27
of padbadstream) is silently accepted and the decode completes with the
block's record appended, because the code verifies the first check_size
(here 0) bytes of the padding+check buffer instead of the padding
portion. The last conjunct makes this universal: for a finalizing block
with check type none and three padding bytes of ANY content, the read
appends the record (13, 1) and moves on to structural parsing — the
eventual error on this truncated source is read_exact exhaustion, never
the block-padding error the claim requires, whatever the padding holds.
The other padding regions do produce their specific errors (index
padding, block-header padding, and block padding when the check type is
CRC32 are shown). -/
theorem xz_c2_bug_eval :
    ((padbadstream.drop 25).take 3 = [0xAB, 0, 0] ∧
      (xz_read 5 (initDecoder ⟨[padbadstream]⟩ [okscript]) 10).1 = .ok [0x48] ∧
      (xz_read 5 (xz_read 5 (initDecoder ⟨[padbadstream]⟩ [okscript]) 10).2 10).1
        = .ok [] ∧
      (xz_read 5 (xz_read 5 (initDecoder ⟨[padbadstream]⟩ [okscript]) 10).2 10).2.records
        = [(13, 1)]) ∧
    ((xz_read 5 (initDecoder ⟨[zidxbadstream]⟩ []) 10).1
        = .error "Invalid XZ index padding" ∧
      (xz_read 5 (initDecoder ⟨[bhpadbadstream]⟩ []) 10).1
        = .error "Invalid XZ block header padding" ∧
      (xz_read 5 (xz_read 5 (initDecoder ⟨[crcpadbadstream]⟩ [okscript]) 10).2 10).1
        = .error "Invalid XZ block padding") ∧
    ∀ p1 p2 p3 : Nat,
      xz_read 1 ⟨.lzma [] ⟨⟨[[p1, p2, p3]]⟩, 25, 1⟩, (0, 0), 12, 1, [], []⟩ 1
        = (.error "failed to fill whole buffer",
           ⟨.raw ⟨⟨[]⟩, 28, 1⟩, (0, 0), 28, 1, [(13, 1)], []⟩) :=
  ⟨by decide, by decide, fun p1 p2 p3 => by
    simp [xz_read, xz_struct, lzmaRead, rcReadExact, rcReadExactAux, rcRead, srcRead]⟩

/-- C3, code evaluated at the failing input: with check type CRC32 and an
empty block-padding region (unpadded size 16), the two streams below are
identical except for the four check-value bytes, yet the all-zero check
value decodes while the check value 01 00 00 00 fails with the
block-padding error, so the check bytes are constrained by the decoder. -/
theorem xz_c3_bug_eval :
    (crcbadstream.take 28 = crczerostream.take 28 ∧
      crcbadstream.drop 32 = crczerostream.drop 32 ∧
      (crcbadstream.drop 28).take 4 = [1, 0, 0, 0] ∧
      (crczerostream.drop 28).take 4 = [0, 0, 0, 0]) ∧
    (xz_read 5 (initDecoder ⟨[crcbadstream]⟩ [crcscript]) 10).1 = .ok [0x48] ∧
    (xz_read 5 (xz_read 5 (initDecoder ⟨[crcbadstream]⟩ [crcscript]) 10).2 10).1
      = .error "Invalid XZ block padding" ∧
    (xz_read 5 (xz_read 5 (initDecoder ⟨[crczerostream]⟩ [crcscript]) 10).2 10).1
      = .ok [] := by
  decide

/-- C4, counterexample: the decoder fully accepts zstream although bytes
[0:4] of its 16-byte post-index region are not the CRC32 of bytes
[8:14] of that region, so bytes [0:4] are not validated against that
coverage. -/
theorem xz_c4_counterexample :
    (xz_read 5 (initDecoder ⟨[zstream]⟩ []) 10).1 = .ok [] ∧
    zstream.drop 16 = zfooter16 ∧
    zfooter16.take 4 ≠ u32le (crc32 ((zfooter16.drop 8).take 6)) := by
  decide

/-- C4 (amended): in the 16-byte region read after the index padding,
bytes [0:4] hold the CRC32 of the index (marker byte through index
padding, here the four zero bytes at offsets 12-15 of zstream), checked
against the running index digest with the error "Invalid XZ index
CRC32"; it is bytes [4:8] that hold the CRC32 of bytes [8:14], checked
with the distinct error "Invalid XZ footer CRC32". -/
theorem xz_c4_amended :
    ((xz_read 5 (initDecoder ⟨[zstream]⟩ []) 10).1 = .ok [] ∧
      (zstream.drop 12).take 4 = [0, 0, 0, 0] ∧
      zfooter16.take 4 = u32le (crc32 ((zstream.drop 12).take 4)) ∧
      (zfooter16.drop 4).take 4 = u32le (crc32 ((zfooter16.drop 8).take 6))) ∧
    ∀ (dg : Nat) (fl : Nat × Nat) (size : Nat) (fb : List Nat),
      (check_footer dg fl size fb = .ok () →
        fb.take 4 = u32le (crcFinal dg) ∧
          (fb.drop 4).take 4 = u32le (crc32 ((fb.drop 8).take 6))) ∧
      (fb.take 4 ≠ u32le (crcFinal dg) →
        check_footer dg fl size fb = .error "Invalid XZ index CRC32") ∧
      (fb.take 4 = u32le (crcFinal dg) →
        (fb.drop 4).take 4 ≠ u32le (crc32 ((fb.drop 8).take 6)) →
        check_footer dg fl size fb = .error "Invalid XZ footer CRC32") :=
  ⟨by decide, fun dg fl size fb =>
    ⟨fun h => ⟨((footer_checks dg fl size fb).1 h).1, ((footer_checks dg fl size fb).1 h).2.1⟩,
     (footer_checks dg fl size fb).2.1, (footer_checks dg fl size fb).2.2.1⟩⟩

/-- C4, witness: a footer region whose first four bytes mismatch the
index digest fails with the index-CRC error. -/
theorem xz_c4_witness :
    check_footer 0 (0, 0) 0 (List.replicate 16 0) = .error "Invalid XZ index CRC32" :=
  (xz_c4_amended.2 0 (0, 0) 0 (List.replicate 16 0)).2.1 (by decide)

/-- C5: the footer is accepted only if bytes [8:12] of the 16-byte region
equal the little-endian (index byte length / 4) - 1, where the index byte
length size + 4 spans the marker byte through the 4-byte index CRC32
(size spans marker through padding and the region's first four bytes are
that CRC32); when the two CRC checks pass and the backward-size bytes
mismatch, the read fails with the distinct error "Invalid XZ footer
size". For zstream the index byte length is 8 and the stored field is
u32le (8 / 4 - 1). -/
theorem xz_c5_backward_size :
    ((xz_read 5 (initDecoder ⟨[zstream]⟩ []) 10).2.reader = .raw ⟨⟨[]⟩, 0, 1⟩ ∧
      (zfooter16.drop 8).take 4 = u32le (8 / 4 - 1)) ∧
    ∀ (dg : Nat) (fl : Nat × Nat) (size : Nat) (fb : List Nat),
      (check_footer dg fl size fb = .ok () →
        (fb.drop 8).take 4 = u32le ((size + 4) / 4 - 1)) ∧
      (fb.take 4 = u32le (crcFinal dg) →
        (fb.drop 4).take 4 = u32le (crc32 ((fb.drop 8).take 6)) →
        (fb.drop 8).take 4 ≠ u32le ((size + 4) / 4 - 1) →
        check_footer dg fl size fb = .error "Invalid XZ footer size") :=
  ⟨by decide, fun dg fl size fb =>
    ⟨fun h => ((footer_checks dg fl size fb).1 h).2.2,
     (footer_checks dg fl size fb).2.2.2⟩⟩

/-- C5, witness: a footer whose backward-size field holds 9 instead of
(4 + 4) / 4 - 1 = 1 fails with the footer-size error. -/
theorem xz_c5_witness :
    check_footer (crcUpdate 0xFFFFFFFF [0, 0, 0, 0]) (0, 0) 4
        (u32le (crcFinal (crcUpdate 0xFFFFFFFF [0, 0, 0, 0])) ++
          u32le (crc32 [9, 0, 0, 0, 0, 0]) ++ [9, 0, 0, 0] ++ [0, 0] ++ [0x59, 0x5A])
      = .error "Invalid XZ footer size" :=
  (xz_c5_backward_size.2 (crcUpdate 0xFFFFFFFF [0, 0, 0, 0]) (0, 0) 4
      (u32le (crcFinal (crcUpdate 0xFFFFFFFF [0, 0, 0, 0])) ++
        u32le (crc32 [9, 0, 0, 0, 0, 0]) ++ [9, 0, 0, 0] ++ [0, 0] ++ [0x59, 0x5A])).2
    (by decide) (by decide) (by decide)

/-- C6, counterexample: a block header declaring two filters (flags byte
0x01), both well-formed LZMA2 entries, is accepted: the read succeeds
and returns the block's first decompressed byte instead of failing with
an unsupported-feature error. -/
theorem xz_c6_counterexample :
    (xz_read 5 (initDecoder ⟨[twofilterstream]⟩ [[(1, [0x41])]]) 10).1 = .ok [0x41] := by
  decide

/-- C6 (amended): the filter-count bits of the block flags byte are never
themselves rejected; the decoder accepts a multi-filter header whose
every entry is a well-formed LZMA2 entry (and proceeds into the block),
while each individually malformed entry is rejected with its
unsupported-feature error (filter ID, properties size, properties). -/
theorem xz_c6_amended :
    ((twofilterstream.drop 13).take 1 = [1] ∧
      (xz_read 5 (initDecoder ⟨[twofilterstream]⟩ [[(1, [0x41])]]) 10).2.reader.isLzma
        = true) ∧
    (xz_read 5 (initDecoder ⟨[twofilterbadid]⟩ []) 10).1
      = .error "Unsupported XZ filter ID" ∧
    (xz_read 5 (initDecoder ⟨[twofilterbadps]⟩ []) 10).1
      = .error "Unsupported XZ filter properties size" ∧
    (xz_read 5 (initDecoder ⟨[twofilterbadpr]⟩ []) 10).1
      = .error "Unsupported XZ filter properties" := by
  decide

/-- C7: the index is accepted only if its record count and every
(unpadded_size, uncompressed_size) pair match what was recorded while
decoding, with a distinct error for a count mismatch, an unpadded-size
mismatch and an uncompressed-size mismatch. The record loop succeeds
exactly when the pairs present in the index equal the recorded ones in
order; when they differ it fails with one of its two mismatch errors;
and the three concrete one-block streams whose index declares a wrong
count, a wrong unpadded size, and a wrong uncompressed size fail with
the three distinct errors, while the correct index is accepted. -/
theorem xz_c7_index_validation :
    (∀ (records : List (Nat × Nat)) (r : RcReader) (dg : Nat) (r2 : RcReader) (dg2 : Nat),
      checkRecords records r dg = .ok (r2, dg2) ↔
        readPairs records.length r dg = .ok (records, r2, dg2)) ∧
    (∀ (records : List (Nat × Nat)) (r : RcReader) (dg : Nat) (ps : List (Nat × Nat))
        (r2 : RcReader) (dg2 : Nat),
      readPairs records.length r dg = .ok (ps, r2, dg2) → ps ≠ records →
        checkRecords records r dg = .error "Invalid XZ unpadded size" ∨
          checkRecords records r dg = .error "Invalid XZ uncompressed size") ∧
    (xz_read 5 (xz_read 5 (initDecoder ⟨[cntbadstream]⟩ [okscript]) 10).2 10).1
      = .error "Invalid XZ index record count" ∧
    (xz_read 5 (xz_read 5 (initDecoder ⟨[unpbadstream]⟩ [okscript]) 10).2 10).1
      = .error "Invalid XZ unpadded size" ∧
    (xz_read 5 (xz_read 5 (initDecoder ⟨[totbadstream]⟩ [okscript]) 10).2 10).1
      = .error "Invalid XZ uncompressed size" ∧
    (xz_read 5 (xz_read 5 (initDecoder ⟨[okstream]⟩ [okscript]) 10).2 10).2.records
      = [(13, 1)] ∧
    (xz_read 5 (xz_read 5 (initDecoder ⟨[okstream]⟩ [okscript]) 10).2 10).1 = .ok [] :=
  ⟨fun records r dg r2 dg2 => checkRecords_ok_iff records r dg r2 dg2,
   fun records r dg ps r2 dg2 => checkRecords_mismatch records r dg ps r2 dg2,
   by decide, by decide, by decide, by decide, by decide⟩

/-- C7, witness: a recorded block (13, 1) against index bytes declaring
(14, 1) fails with one of the two pair-mismatch errors. -/
theorem xz_c7_witness :
    checkRecords [(13, 1)] ⟨⟨[[14, 1]]⟩, 0, 1⟩ 0 = .error "Invalid XZ unpadded size" ∨
      checkRecords [(13, 1)] ⟨⟨[[14, 1]]⟩, 0, 1⟩ 0 = .error "Invalid XZ uncompressed size" :=
  xz_c7_index_validation.2.1 [(13, 1)] ⟨⟨[[14, 1]]⟩, 0, 1⟩ 0 [(14, 1)] ⟨⟨[]⟩, 2, 1⟩
    (crcUpdate 0 [14, 1]) (by decide) (by decide)

/-- C8, counterexample: after one read of a one-block stream whose block
has further scripted compressed data, the decoder is mid-block (the
LZMA2-wrapped view is active and its script is nonempty), yet into_inner
succeeds, silently returning the source with the 23 remaining stream
bytes unread, instead of failing. -/
theorem xz_c8_counterexample :
    into_inner (xz_read 5 (initDecoder ⟨[okstream]⟩ [[(1, [0x48]), (1, [0x49])]]) 10).2
      = some ⟨[okstream.drop 25]⟩ ∧
    (xz_read 5 (initDecoder ⟨[okstream]⟩ [[(1, [0x48]), (1, [0x49])]]) 10).2.reader.isLzma
      = true ∧
    (xz_read 5 (initDecoder ⟨[okstream]⟩ [[(1, [0x48]), (1, [0x49])]]) 10).2.reader.scriptRem
      ≠ [] ∧
    okstream.drop 25 ≠ [] := by
  decide

/-- C8 (amended): between reads the decoder's current view is the only
outstanding handle to the shared counting source (every clone in the
read path replaces the handle it was cloned from within the same
statement), so into_inner always succeeds — in lzma mode just as in raw
mode — and mid-block it silently returns the source with the block's
remaining data unread; the concrete mid-block state reached by an actual
read has view count 1. -/
theorem xz_c8_amended :
    (∀ (d : XzDecoder) (sc : List (Nat × List Nat)) (r : RcReader),
      d.reader = .lzma sc r → r.views = 1 → into_inner d = some r.src) ∧
    (xz_read 5 (initDecoder ⟨[okstream]⟩ [[(1, [0x48]), (1, [0x49])]]) 10).2.reader.rc.views
      = 1 :=
  ⟨fun d sc r hd hv => by simp [into_inner, hd, hv], by decide⟩

/-- C8, witness: into_inner applied at the concrete mid-block state. -/
theorem xz_c8_witness :
    into_inner (xz_read 5 (initDecoder ⟨[okstream]⟩ [[(1, [0x48]), (1, [0x49])]]) 10).2
      = some (⟨[okstream.drop 25]⟩ : ByteSrc) :=
  xz_c8_amended.1 (xz_read 5 (initDecoder ⟨[okstream]⟩ [[(1, [0x48]), (1, [0x49])]]) 10).2
    [(1, [0x49])] ⟨⟨[okstream.drop 25]⟩, 25, 1⟩ (by decide) (by decide)

/-- C9: the 12-byte stream header is requested with a single read call
and validated against a zero-padded buffer when that call returns short:
the well-formed zstream decodes when delivered whole, but splitting it
so the first read call returns n bytes, 0 < n < 12, makes the first
decoder read fail with a format error for every such n. -/
theorem xz_c9_short_header_read :
    (xz_read 5 (initDecoder ⟨[zstream]⟩ []) 10).1 = .ok [] ∧
    ∀ n, n < 12 → 0 < n →
      isError (xz_read 5 (initDecoder ⟨[zstream.take n, zstream.drop n]⟩ []) 10) = true := by
  decide

/-- C9, witness: the split after the 6 magic bytes is rejected. -/
theorem xz_c9_witness :
    isError (xz_read 5 (initDecoder ⟨[zstream.take 6, zstream.drop 6]⟩ []) 10) = true :=
  xz_c9_short_header_read.2 6 (by decide) (by decide)

/-- C10: the adapter returns zero bytes for a zero-length buffer without
consuming anything, and the decoder interprets any zero-byte adapter
return as end of the block: called mid-block with a zero-length buffer
while scripted compressed data remains, it finalizes the block — appends
the size record (13, 1), consumes the padding/check bytes and continues
structural parsing, ending the block early. -/
theorem xz_c10_zero_buffer_finalizes :
    (∀ (sc : List (Nat × List Nat)) (r : RcReader), lzmaRead 0 sc r = .ok ([], sc, r)) ∧
    (xz_read 5 (initDecoder ⟨[okstream]⟩ [[(1, [0x48]), (1, [0x49])]]) 10).2.reader.scriptRem
      = [(1, [0x49])] ∧
    (xz_read 5 (xz_read 5 (initDecoder ⟨[okstream]⟩ [[(1, [0x48]), (1, [0x49])]]) 10).2 0).1
      = .ok [] ∧
    (xz_read 5 (xz_read 5 (initDecoder ⟨[okstream]⟩
        [[(1, [0x48]), (1, [0x49])]]) 10).2 0).2.records = [(13, 1)] ∧
    (xz_read 5 (xz_read 5 (initDecoder ⟨[okstream]⟩
        [[(1, [0x48]), (1, [0x49])]]) 10).2 0).2.reader.isLzma = false :=
  ⟨fun sc r => rfl, by decide, by decide, by decide, by decide⟩

end XzSpec
